import Mathlib

/-!
Verification development for the forex-power-system repository.

The file shallowly embeds the signal-enhancement logic of src/app.py
(pattern table, SignalProcessor.enhance_signal, the tradingview_webhook
state updates) and of src/real_fundamental_engine.py (the per-category
cache, the enhancement-factor heuristics and apply_enhancement).

Python floats are modelled as exact rationals; a JSON field that may fail
float() coercion is modelled as Option (Option Rat): none = field absent
(the default is used), some none = present but non-numeric (float raises),
some (some q) = present with numeric value q.
-/

attribute [local semireducible] Rat.add Rat.mul Rat.inv Rat.sub Rat.ofScientific

namespace ForexPower

/-- Python str.upper for the ASCII strings this program handles. -/
def strUpper (s : String) : String := ⟨s.data.map Char.toUpper⟩

/-! ### src/app.py: static pattern table -/

/-- One record of SignalProcessor.power_patterns. -/
structure PatternRecord where
  base_return : ℚ
  enhanced_return : ℚ
  confidence_boost : ℚ
deriving DecidableEq

/-- The eleven validated patterns of SignalProcessor.__init__. -/
def power_patterns : List (String × PatternRecord) :=
  [ ("GBPUSD_DAILY",  ⟨79.5, 133.0, 0.18⟩),
    ("AUDCAD_DAILY",  ⟨77.4, 129.8, 0.20⟩),
    ("NZDUSD_WEEKLY", ⟨61.7, 105.9, 0.18⟩),
    ("EURUSD_4H",     ⟨43.2, 72.0,  0.19⟩),
    ("USDCHF_DAILY",  ⟨41.2, 70.9,  0.18⟩),
    ("NZDCAD_WEEKLY", ⟨25.4, 42.5,  0.15⟩),
    ("GBPAUD_DAILY",  ⟨25.3, 44.3,  0.12⟩),
    ("GBPNZD_DAILY",  ⟨21.3, 35.7,  0.14⟩),
    ("EURCAD_WEEKLY", ⟨13.8, 24.2,  0.15⟩),
    ("GBPNZD_4H",     ⟨11.2, 19.1,  0.20⟩),
    ("GBPCHF_WEEKLY", ⟨9.5,  16.3,  0.16⟩) ]

/-- Dictionary lookup `pattern_key in self.power_patterns` /
`self.power_patterns[pattern_key]`. -/
def findPattern (k : String) : Option PatternRecord :=
  (power_patterns.find? (fun p => p.1 == k)).map (fun p => p.2)

/-! ### src/app.py: signal data and enhancement -/

/-- A JSON field that `float()` is applied to: absent, non-numeric, or
numeric. -/
abbrev NumField := Option (Option ℚ)

/-- `float(signal_data.get(field, default))`: returns none when the
present value is non-numeric (float raises). -/
def coerceField (v : NumField) (default : ℚ) : Option ℚ :=
  match v with
  | none => some default
  | some none => none
  | some (some q) => some q

/-- The fields of the incoming webhook JSON object that enhance_signal
reads. -/
structure SignalData where
  ticker : Option String
  symbol : Option String
  timeframe : Option String
  action : Option String
  signal_field : Option String
  confidence : NumField
  position_size : NumField
deriving DecidableEq

/-- signal_strength labels. -/
inductive Strength where
  | STRONG
  | MODERATE
  | WEAK
deriving DecidableEq

/-- `'STRONG' if c > 0.8 else 'MODERATE' if c > 0.65 else 'WEAK'`. -/
def strengthOf (c : ℚ) : Strength :=
  if c > 0.8 then Strength.STRONG
  else if c > 0.65 then Strength.MODERATE
  else Strength.WEAK

/-- The enhanced-signal record built by enhance_signal (timestamp and the
raw_data echo omitted: no claim mentions them). -/
structure EnhancedSignal where
  pair : String
  timeframe : String
  action : String
  original_confidence : ℚ
  enhanced_confidence : ℚ
  confidence_improvement : ℚ
  original_position_size : ℚ
  enhanced_position_size : ℚ
  kelly_multiplier : ℚ
  expected_return : ℚ
  power_upgrade_applied : Bool
  signal_strength : Strength
deriving DecidableEq

/-- `signal_data.get('ticker', signal_data.get('symbol', 'UNKNOWN'))`. -/
def pairOf (sd : SignalData) : String :=
  sd.ticker.getD (sd.symbol.getD "UNKNOWN")

/-- `signal_data.get('timeframe', 'DAILY').upper()`. -/
def timeframeOf (sd : SignalData) : String :=
  strUpper (sd.timeframe.getD "DAILY")

/-- `pattern_key = f"{pair}_{timeframe}"`. -/
def patternKey (sd : SignalData) : String :=
  pairOf sd ++ "_" ++ timeframeOf sd

/-- SignalProcessor.enhance_signal: none models the None returned when the
internal try/except catches a coercion failure. -/
def enhance_signal (sd : SignalData) : Option EnhancedSignal :=
  let pair := pairOf sd
  let timeframe := timeframeOf sd
  let action := sd.action.getD (sd.signal_field.getD "NONE")
  match coerceField sd.confidence 0.65 with
  | none => none
  | some base_confidence =>
    match findPattern (patternKey sd) with
    | some pattern_data =>
      let confidence_boost := pattern_data.confidence_boost
      let enhanced_confidence := min 0.95 (base_confidence + confidence_boost)
      let kelly_multiplier := pattern_data.enhanced_return / pattern_data.base_return
      match coerceField sd.position_size 2.0 with
      | none => none
      | some base_position_size =>
        let enhanced_position_size := min 5.0 (base_position_size * kelly_multiplier * 0.3)
        some
          { pair := pair
            timeframe := timeframe
            action := action
            original_confidence := base_confidence
            enhanced_confidence := enhanced_confidence
            confidence_improvement := enhanced_confidence - base_confidence
            original_position_size := base_position_size
            enhanced_position_size := enhanced_position_size
            kelly_multiplier := kelly_multiplier
            expected_return := pattern_data.enhanced_return
            power_upgrade_applied := true
            signal_strength := strengthOf enhanced_confidence }
    | none =>
      match coerceField sd.position_size 2.0 with
      | none => none
      | some base_position_size =>
        some
          { pair := pair
            timeframe := timeframe
            action := action
            original_confidence := base_confidence
            enhanced_confidence := base_confidence + 0.05
            confidence_improvement := 0.05
            original_position_size := base_position_size
            enhanced_position_size := base_position_size
            kelly_multiplier := 1.0
            expected_return := 15.0
            power_upgrade_applied := false
            signal_strength := Strength.WEAK }

/-! ### src/app.py: webhook state -/

/-- The process-wide performance_stats dict. -/
structure PerfStats where
  total_signals : ℕ
  signals_today : ℕ
  high_confidence_signals : ℕ
  avg_confidence : ℚ
  success_rate : ℚ
  total_return : ℚ
  active_pairs : Finset String
deriving DecidableEq

/-- Process-wide mutable state: signals_history (front = oldest) and
performance_stats. -/
structure ServerState where
  signals_history : List EnhancedSignal
  stats : PerfStats
deriving DecidableEq

/-- State at module import: empty deque(maxlen=1000), zeroed stats. -/
def initialState : ServerState :=
  { signals_history := []
    stats :=
      { total_signals := 0
        signals_today := 0
        high_confidence_signals := 0
        avg_confidence := 0.0
        success_rate := 100.0
        total_return := 0.0
        active_pairs := ∅ } }

/-- deque(maxlen=1000).append: when at capacity, pop the oldest (leftmost)
before appending on the right. -/
def dequeAppend (h : List EnhancedSignal) (e : EnhancedSignal) : List EnhancedSignal :=
  if h.length < 1000 then h ++ [e] else h.drop 1 ++ [e]

/-- `[s['enhanced_confidence'] for s in signals_history]` then
`sum(...) / len(...)`. -/
def meanConf (h : List EnhancedSignal) : ℚ :=
  (h.map (fun s => s.enhanced_confidence)).sum / ((h.map (fun s => s.enhanced_confidence)).length : ℚ)

/-- An HTTP response: status code and the message field of the JSON body. -/
structure HttpResponse where
  status : ℕ
  message : String
deriving DecidableEq

/-- tradingview_webhook: body = none models falsy/absent JSON data (the
400 'No data received' branch); otherwise the parsed signal object. -/
def tradingview_webhook (body : Option SignalData) (st : ServerState) :
    HttpResponse × ServerState :=
  match body with
  | none => (⟨400, "No data received"⟩, st)
  | some data =>
    match enhance_signal data with
    | none => (⟨400, "Signal enhancement failed"⟩, st)
    | some enhanced_signal =>
      let history := dequeAppend st.signals_history enhanced_signal
      let s := st.stats
      let s :=
        { s with
          total_signals := s.total_signals + 1
          signals_today := s.signals_today + 1 }
      let s :=
        if enhanced_signal.enhanced_confidence > 0.8 then
          { s with high_confidence_signals := s.high_confidence_signals + 1 }
        else s
      let s := { s with avg_confidence := meanConf history }
      let s := { s with active_pairs := insert enhanced_signal.pair s.active_pairs }
      (⟨200, "Signal processed and enhanced"⟩,
        { signals_history := history, stats := s })

/-- Run a sequence of webhook invocations. -/
def runWebhooks : List (Option SignalData) → ServerState → ServerState
  | [], st => st
  | b :: bs, st => runWebhooks bs (tradingview_webhook b st).2

/-- The enhanced signals produced by the successful invocations, in order. -/
def successes : List (Option SignalData) → List EnhancedSignal
  | [] => []
  | none :: bs => successes bs
  | some d :: bs =>
    match enhance_signal d with
    | none => successes bs
    | some e => e :: successes bs

/-- The last n elements of a list (all of it when it is shorter). -/
def lastN (n : ℕ) (l : List EnhancedSignal) : List EnhancedSignal :=
  l.drop (l.length - n)

/-! ### src/real_fundamental_engine.py: market data and sentiment -/

/-- One entry of the market_data dict: latest close and percent change
(the data_points and last_updated fields are not read downstream). -/
structure Indicator where
  value : ℚ
  change_pct : ℚ
deriving DecidableEq

/-- The market_data dict keyed by the seven yahoo_tickers names; an absent
key models a failed individual fetch. All-none models the empty dict. -/
structure MarketData where
  VIX : Option Indicator
  SPX : Option Indicator
  DXY : Option Indicator
  TNX : Option Indicator
  GLD : Option Indicator
  OIL : Option Indicator
  TLT : Option Indicator
deriving DecidableEq

/-- The empty market_data dict returned by fetch_real_market_data on
total failure. -/
def emptyMarketData : MarketData :=
  ⟨none, none, none, none, none, none, none⟩

/-- The fields of the news-sentiment dict that
calculate_enhancement_factor reads. An Option NewsSentiment with value
none models the empty dict fallback (falsy in Python). -/
structure NewsSentiment where
  sentiment_score : ℚ
  articles_analyzed : ℕ
  confidence : ℚ
deriving DecidableEq

/-- Risk sentiment labels of calculate_risk_sentiment. -/
inductive RiskSentiment where
  | RISK_ON
  | RISK_OFF
  | NEUTRAL
  | UNKNOWN
deriving DecidableEq

/-- RealFundamentalEngine.calculate_risk_sentiment. -/
def calculate_risk_sentiment (md : MarketData) : RiskSentiment :=
  let risk_factors : List ℚ := []
  let risk_factors :=
    match md.VIX with
    | some vix =>
      risk_factors ++
        [if vix.value > 25 then (-1 : ℚ) else if vix.value < 15 then 1 else 0]
    | none => risk_factors
  let risk_factors :=
    match md.SPX with
    | some spx =>
      risk_factors ++
        [if spx.change_pct > 1 then (1 : ℚ) else if spx.change_pct < -1 then -1 else 0]
    | none => risk_factors
  let risk_factors :=
    match md.TNX with
    | some tnx =>
      risk_factors ++
        [if tnx.change_pct > 2 then (1 : ℚ) else if tnx.change_pct < -2 then -1 else 0]
    | none => risk_factors
  if risk_factors.isEmpty then RiskSentiment.UNKNOWN
  else
    let avg_risk := risk_factors.sum / (risk_factors.length : ℚ)
    if avg_risk > 0.3 then RiskSentiment.RISK_ON
    else if avg_risk < -0.3 then RiskSentiment.RISK_OFF
    else RiskSentiment.NEUTRAL

/-- The base_factors and quote_factors lists. -/
structure CurrencyFactors where
  base_factors : List ℚ
  quote_factors : List ℚ
deriving DecidableEq

/-- The JPY/CHF safe-haven iteration of
calculate_currency_specific_factors for one currency code. -/
def safeHavenStep (base_curr quote_curr curr : String) (md : MarketData)
    (acc : CurrencyFactors) : CurrencyFactors :=
  if base_curr = curr ∨ quote_curr = curr then
    let f0 : ℚ := 0
    let f1 :=
      match md.VIX with
      | some vix =>
        if vix.change_pct > 5 then f0 + 1
        else if vix.change_pct < -5 then f0 - 1
        else f0
      | none => f0
    let safe_haven_factor :=
      match md.GLD with
      | some gld =>
        if gld.change_pct > 1 then f1 + 0.5
        else if gld.change_pct < -1 then f1 - 0.5
        else f1
      | none => f1
    if safe_haven_factor ≠ 0 then
      if base_curr = curr then
        { acc with base_factors := acc.base_factors ++ [safe_haven_factor] }
      else
        { acc with quote_factors := acc.quote_factors ++ [-safe_haven_factor] }
    else acc
  else acc

/-- The AUD/NZD risk-sentiment iteration of
calculate_currency_specific_factors for one currency code. -/
def riskCurrencyStep (base_curr quote_curr curr : String) (md : MarketData)
    (acc : CurrencyFactors) : CurrencyFactors :=
  if base_curr = curr ∨ quote_curr = curr then
    let r0 : ℚ := 0
    let risk_factor :=
      match md.SPX with
      | some spx =>
        if spx.change_pct > 1 then r0 + 1
        else if spx.change_pct < -1 then r0 - 1
        else r0
      | none => r0
    if risk_factor ≠ 0 then
      if base_curr = curr then
        { acc with base_factors := acc.base_factors ++ [risk_factor * 0.6] }
      else
        { acc with quote_factors := acc.quote_factors ++ [-risk_factor * 0.6] }
    else acc
  else acc

/-- RealFundamentalEngine.calculate_currency_specific_factors. -/
def calculate_currency_specific_factors (currency_pair : String)
    (md : MarketData) : CurrencyFactors :=
  let base_curr := currency_pair.take 3
  let quote_curr := currency_pair.drop 3
  let factors : CurrencyFactors := ⟨[], []⟩
  let factors :=
    if base_curr = "USD" ∨ quote_curr = "USD" then
      let factors :=
        match md.DXY with
        | some dxy =>
          if |dxy.change_pct| > 0.3 then
            let usd_strength : ℚ := if dxy.change_pct > 0 then 1 else -1
            if base_curr = "USD" then
              { factors with base_factors := factors.base_factors ++ [usd_strength] }
            else
              { factors with quote_factors := factors.quote_factors ++ [-usd_strength] }
          else factors
        | none => factors
      let factors :=
        match md.TNX with
        | some tnx =>
          if |tnx.change_pct| > 1 then
            let yield_factor : ℚ := if tnx.change_pct > 0 then 1 else -1
            if base_curr = "USD" then
              { factors with base_factors := factors.base_factors ++ [yield_factor * 0.5] }
            else
              { factors with quote_factors := factors.quote_factors ++ [-yield_factor * 0.5] }
          else factors
        | none => factors
      factors
    else factors
  let factors :=
    if base_curr = "CAD" ∨ quote_curr = "CAD" then
      match md.OIL with
      | some oil =>
        if |oil.change_pct| > 1 then
          let oil_factor : ℚ := if oil.change_pct > 0 then 1 else -1
          if base_curr = "CAD" then
            { factors with base_factors := factors.base_factors ++ [oil_factor * 0.7] }
          else
            { factors with quote_factors := factors.quote_factors ++ [-oil_factor * 0.7] }
        else factors
      | none => factors
    else factors
  let factors := safeHavenStep base_curr quote_curr "JPY" md factors
  let factors := safeHavenStep base_curr quote_curr "CHF" md factors
  let factors := riskCurrencyStep base_curr quote_curr "AUD" md factors
  let factors := riskCurrencyStep base_curr quote_curr "NZD" md factors
  factors

/-- RealFundamentalEngine.calculate_enhancement_factor (the exception
branch returning 1.0 cannot fire in this total embedding). -/
def calculate_enhancement_factor (currency_pair : String) (md : MarketData)
    (ns : Option NewsSentiment) : ℚ :=
  let factor : ℚ := 1.0
  let factor :=
    match ns with
    | some n =>
      if n.articles_analyzed > 0 then
        if n.confidence > 0.2 then
          factor * (1.0 + n.sentiment_score * n.confidence * 0.15)
        else factor
      else factor
    | none => factor
  let currency_factors := calculate_currency_specific_factors currency_pair md
  let base_factor := currency_factors.base_factors.sum
  let quote_factor := currency_factors.quote_factors.sum
  let total_currency_factor := base_factor + quote_factor
  let factor :=
    if |total_currency_factor| > 0.1 then
      let currency_impact := max (-0.2) (min 0.2 (total_currency_factor * 0.1))
      factor * (1.0 + currency_impact)
    else factor
  max 0.7 (min 1.4 factor)

/-- RealFundamentalEngine.apply_enhancement. -/
def apply_enhancement (original_confidence enhancement_factor : ℚ) : ℚ :=
  let enhanced := original_confidence * enhancement_factor
  max 0.1 (min 0.95 enhanced)

/-! ### src/real_fundamental_engine.py: caching -/

/-- A cache entry list: key, (payload, fetch time in seconds). The
association list models self.cache restricted to one payload type (the
key spaces of the two payload kinds are disjoint in the source:
'market_data' vs 'news_<pair>'). -/
def lookupC {α : Type} (cache : List (String × α × ℚ)) (key : String) :
    Option (α × ℚ) :=
  (cache.find? (fun p => p.1 == key)).map (fun p => p.2)

/-- Store (key, payload, now), replacing any previous entry for key. -/
def storeC {α : Type} (cache : List (String × α × ℚ)) (key : String)
    (payload : α) (now : ℚ) : List (String × α × ℚ) :=
  (key, payload, now) :: cache.filter (fun p => ¬(p.1 == key))

/-- Result of get_cached_or_fetch: the returned payload, the cache
afterwards, and whether fetch_function was invoked. -/
structure FetchResult (α : Type) where
  result : α
  cache : List (String × α × ℚ)
  fetchInvoked : Bool

/-- RealFundamentalEngine.get_cached_or_fetch, with the fetch function
modelled as a test double: some payload = returns it, none = raises.
cache_duration = 300 seconds; emptyPayload models the empty dict returned
when the fetch fails and no cached entry exists. -/
def get_cached_or_fetch {α : Type} (emptyPayload : α)
    (cache : List (String × α × ℚ)) (cache_key : String)
    (fetch_function : Option α) (now : ℚ) : FetchResult α :=
  match lookupC cache cache_key with
  | some (cached_data, cached_time) =>
    if now - cached_time < 300 then
      ⟨cached_data, cache, false⟩
    else
      match fetch_function with
      | some fresh_data => ⟨fresh_data, storeC cache cache_key fresh_data now, true⟩
      | none => ⟨cached_data, cache, true⟩
  | none =>
    match fetch_function with
    | some fresh_data => ⟨fresh_data, storeC cache cache_key fresh_data now, true⟩
    | none => ⟨emptyPayload, cache, true⟩

/-! ### src/real_fundamental_engine.py: signal enhancement -/

/-- The fields of the input signal dict that
enhance_signal_with_real_fundamentals reads. -/
structure FundSignal where
  ticker : Option String
  confidence : NumField
deriving DecidableEq

/-- The fields update() adds on top of signal_data.copy(). -/
structure FundEnhanced where
  base : FundSignal
  original_confidence : ℚ
  enhanced_confidence : ℚ
  enhancement_factor : ℚ
  market_data : MarketData
  news_sentiment : Option NewsSentiment
  risk_sentiment : RiskSentiment
  currency_factors : CurrencyFactors
deriving DecidableEq

/-- The dict returned by enhance_signal_with_real_fundamentals: either
the original signal unmodified (the except branch) or a copy updated
with the enhancement fields. -/
inductive FundResult where
  | passthrough (original : FundSignal)
  | enhanced (e : FundEnhanced)
deriving DecidableEq

/-- The engine's self.cache split by payload type (the two key spaces
are disjoint in the source). -/
structure EngineCaches where
  marketCache : List (String × MarketData × ℚ)
  newsCache : List (String × Option NewsSentiment × ℚ)

/-- RealFundamentalEngine.enhance_signal_with_real_fundamentals, with
the two fetchers as test doubles (none = the fetch raises inside
get_cached_or_fetch). Returns the result and the caches afterwards. -/
def enhance_signal_with_real_fundamentals (caches : EngineCaches)
    (marketFetch : Option MarketData)
    (newsFetch : String → Option (Option NewsSentiment)) (now : ℚ)
    (signal_data : FundSignal) : FundResult × EngineCaches :=
  let currency_pair := signal_data.ticker.getD "EURUSD"
  match coerceField signal_data.confidence 0.7 with
  | none => (FundResult.passthrough signal_data, caches)
  | some original_confidence =>
    let rm := get_cached_or_fetch emptyMarketData caches.marketCache
      "market_data" marketFetch now
    let rn := get_cached_or_fetch none caches.newsCache
      ("news_" ++ currency_pair) (newsFetch currency_pair) now
    let market_data := rm.result
    let news_sentiment := rn.result
    let enhancement_factor :=
      calculate_enhancement_factor currency_pair market_data news_sentiment
    let enhanced_confidence :=
      apply_enhancement original_confidence enhancement_factor
    (FundResult.enhanced
      { base := signal_data
        original_confidence := original_confidence
        enhanced_confidence := enhanced_confidence
        enhancement_factor := enhancement_factor
        market_data := market_data
        news_sentiment := news_sentiment
        risk_sentiment := calculate_risk_sentiment market_data
        currency_factors :=
          calculate_currency_specific_factors currency_pair market_data },
      { marketCache := rm.cache, newsCache := rn.cache })

/-! ### Concrete inputs used for witnesses and counterexamples -/

/-- The canned GBPUSD test signal of the /test-signal endpoint. -/
def gbpSignal : SignalData :=
  { ticker := some "GBPUSD", symbol := none, timeframe := some "DAILY",
    action := some "BUY", signal_field := none,
    confidence := some (some 0.72), position_size := some (some 2.0) }

/-- The same request with the instrument in lower case. -/
def lowerGbpSignal : SignalData :=
  { ticker := some "gbpusd", symbol := none, timeframe := some "DAILY",
    action := some "BUY", signal_field := none,
    confidence := some (some 0.72), position_size := some (some 2.0) }

/-- An instrument absent from the pattern table, with a confidence high
enough that an uncapped +0.05 exceeds 0.95. -/
def unknownSignal : SignalData :=
  { ticker := some "XXXYYY", symbol := none, timeframe := some "DAILY",
    action := some "SELL", signal_field := none,
    confidence := some (some 0.93), position_size := some (some 2.0) }

/-- A parseable body whose confidence field is non-numeric, so float()
raises inside enhance_signal. -/
def badConfSignal : SignalData :=
  { ticker := some "GBPUSD", symbol := none, timeframe := none,
    action := some "BUY", signal_field := none,
    confidence := some none, position_size := none }

/-- Engine caches at __init__: self.cache = empty dict. -/
def emptyCaches : EngineCaches := ⟨[], []⟩

/-- A news fetcher test double that raises on every call. -/
def failingNewsFetch : String → Option (Option NewsSentiment) := fun _ => none

/-- A fundamental-overlay input signal with a numeric confidence. -/
def eurSignal : FundSignal :=
  { ticker := some "EURUSD", confidence := some (some 0.72) }

/-- A fundamental-overlay input whose confidence is non-numeric. -/
def badFundSignal : FundSignal :=
  { ticker := some "EURUSD", confidence := some none }

/-- The avg_confidence consistency invariant of PerformanceStats. -/
def AvgInv (st : ServerState) : Prop :=
  st.signals_history = [] ∨ st.stats.avg_confidence = meanConf st.signals_history

/-! ### Claim theorems -/

/-- C1: for every signal request whose lookup key is present in the static
pattern table (and whose numeric fields coerce), the enhanced confidence
equals min(0.95, original confidence + the entry's confidence_boost),
exactly. -/
theorem C1_matched_confidence (sd : SignalData) (base ps : ℚ)
    (pd : PatternRecord)
    (hc : coerceField sd.confidence 0.65 = some base)
    (hp : coerceField sd.position_size 2.0 = some ps)
    (hk : findPattern (patternKey sd) = some pd) :
    ∃ es, enhance_signal sd = some es
      ∧ es.enhanced_confidence = min 0.95 (base + pd.confidence_boost) := by
  unfold enhance_signal
  rw [hc, hk, hp]
  exact ⟨_, rfl, rfl⟩

/-- Witness for C1 at the validated GBPUSD example: boost 0.18 on
confidence 0.72 gives min(0.95, 0.90) = 0.90. -/
theorem C1_matched_confidence_witness :
    coerceField gbpSignal.confidence 0.65 = some 0.72
    ∧ coerceField gbpSignal.position_size 2.0 = some 2.0
    ∧ findPattern (patternKey gbpSignal) = some ⟨79.5, 133.0, 0.18⟩
    ∧ ∃ es, enhance_signal gbpSignal = some es
        ∧ es.enhanced_confidence = min 0.95 (0.72 + 0.18) :=
  ⟨by decide, by decide, by decide,
    C1_matched_confidence gbpSignal 0.72 2.0 ⟨79.5, 133.0, 0.18⟩
      (by decide) (by decide) (by decide)⟩

/-- C2: for every signal request whose lookup key is absent from the
table (and whose numeric fields coerce), enhanced confidence is exactly
original + 0.05 with no cap, the match flag is false, expected return is
15.0, and the position size is unchanged. -/
theorem C2_fallback (sd : SignalData) (base ps : ℚ)
    (hc : coerceField sd.confidence 0.65 = some base)
    (hp : coerceField sd.position_size 2.0 = some ps)
    (hk : findPattern (patternKey sd) = none) :
    ∃ es, enhance_signal sd = some es
      ∧ es.enhanced_confidence = base + 0.05
      ∧ es.power_upgrade_applied = false
      ∧ es.expected_return = 15.0
      ∧ es.original_position_size = ps
      ∧ es.enhanced_position_size = ps := by
  unfold enhance_signal
  rw [hc, hk, hp]
  exact ⟨_, rfl, rfl, rfl, rfl, rfl, rfl⟩

/-- Witness for C2 at an unknown instrument with confidence 0.93: the
result is 0.98, above the 0.95 cap, confirming the cap is not applied on
this path. -/
theorem C2_fallback_witness :
    coerceField unknownSignal.confidence 0.65 = some 0.93
    ∧ coerceField unknownSignal.position_size 2.0 = some 2.0
    ∧ findPattern (patternKey unknownSignal) = none
    ∧ (0.93 + 0.05 : ℚ) > 0.95
    ∧ ∃ es, enhance_signal unknownSignal = some es
        ∧ es.enhanced_confidence = 0.93 + 0.05
        ∧ es.power_upgrade_applied = false
        ∧ es.expected_return = 15.0
        ∧ es.original_position_size = 2.0
        ∧ es.enhanced_position_size = 2.0 :=
  ⟨by decide, by decide, by decide, by decide,
    C2_fallback unknownSignal 0.93 2.0 (by decide) (by decide) (by decide)⟩

/-- C5: for every combination of market-data and news-sentiment inputs,
the enhancement factor lies in [0.7, 1.4] and the confidence returned by
apply_enhancement lies in [0.1, 0.95]. -/
theorem C5_factor_and_confidence_bounds (currency_pair : String)
    (md : MarketData) (ns : Option NewsSentiment) (c : ℚ) :
    0.7 ≤ calculate_enhancement_factor currency_pair md ns
    ∧ calculate_enhancement_factor currency_pair md ns ≤ 1.4
    ∧ 0.1 ≤ apply_enhancement c (calculate_enhancement_factor currency_pair md ns)
    ∧ apply_enhancement c (calculate_enhancement_factor currency_pair md ns) ≤ 0.95 := by
  refine ⟨?_, ?_, ?_, ?_⟩
  · unfold calculate_enhancement_factor
    exact le_max_left _ _
  · unfold calculate_enhancement_factor
    exact max_le (by norm_num) (min_le_left _ _)
  · unfold apply_enhancement
    exact le_max_left _ _
  · unfold apply_enhancement
    exact max_le (by norm_num) (min_le_left _ _)

/-- C6 counterexample: the instrument is not case-normalized, so the same
request with ticker 'gbpusd' misses the table (result 0.77, no match)
while 'GBPUSD' hits it (result 0.90), refuting that both components of
the lookup key are uppercase-normalized. -/
theorem C6_counterexample :
    (enhance_signal lowerGbpSignal).map (fun e => e.enhanced_confidence) = some 0.77
    ∧ (enhance_signal lowerGbpSignal).map (fun e => e.power_upgrade_applied) = some false
    ∧ (enhance_signal gbpSignal).map (fun e => e.enhanced_confidence) = some 0.9
    ∧ enhance_signal lowerGbpSignal ≠ enhance_signal gbpSignal := by
  refine ⟨by decide, by decide, by decide, by decide⟩

/-- C6 amended: only the timeframe component of the lookup key is
uppercase-normalized — requests differing only in the letter case of the
timeframe produce identical results (the instrument is used verbatim). -/
theorem C6_amended_timeframe_case (sd : SignalData) (t1 t2 : String)
    (h : strUpper t1 = strUpper t2) :
    enhance_signal { sd with timeframe := some t1 }
      = enhance_signal { sd with timeframe := some t2 } := by
  unfold enhance_signal patternKey timeframeOf pairOf
  simp only [Option.getD_some]
  rw [h]

/-- Witness for the amended C6: timeframes 'daily' and 'DAILY' give the
same result on the GBPUSD request. -/
theorem C6_amended_timeframe_case_witness :
    strUpper "daily" = strUpper "DAILY"
    ∧ enhance_signal { gbpSignal with timeframe := some "daily" }
        = enhance_signal { gbpSignal with timeframe := some "DAILY" } :=
  ⟨by decide, C6_amended_timeframe_case gbpSignal "daily" "DAILY" (by decide)⟩

/-- C7 counterexample: a parseable body with a non-numeric confidence
makes the enhancement fault internally, and the webhook answers 400 —
not a 5xx status. -/
theorem C7_counterexample :
    enhance_signal badConfSignal = none
    ∧ (tradingview_webhook (some badConfSignal) initialState).1.status = 400
    ∧ (tradingview_webhook (some badConfSignal) initialState).1.status < 500 := by
  refine ⟨by decide, by decide, by decide⟩

/-- C7 amended: an internal enhancement fault yields a 400 response with
message 'Signal enhancement failed' — the same status code as the
missing-body case, distinguished only by the message. -/
theorem C7_amended_status (d : SignalData) (st : ServerState)
    (h : enhance_signal d = none) :
    (tradingview_webhook (some d) st).1 = ⟨400, "Signal enhancement failed"⟩
    ∧ (tradingview_webhook none st).1 = ⟨400, "No data received"⟩
    ∧ ("Signal enhancement failed" : String) ≠ "No data received" := by
  simp only [tradingview_webhook, h]
  exact ⟨trivial, trivial, by decide⟩

/-- Witness for the amended C7 at the non-numeric-confidence body. -/
theorem C7_amended_status_witness :
    enhance_signal badConfSignal = none
    ∧ (tradingview_webhook (some badConfSignal) initialState).1
        = ⟨400, "Signal enhancement failed"⟩
    ∧ (tradingview_webhook none initialState).1 = ⟨400, "No data received"⟩ :=
  ⟨by decide,
    (C7_amended_status badConfSignal initialState (by decide)).1,
    (C7_amended_status badConfSignal initialState (by decide)).2.1⟩

/-- C8: within the 5-minute freshness window a second call returns the
cached payload without invoking the fetch function; after the window a
faulting fetch returns the stale payload when one exists, and the empty
payload when the cache has no entry. The first conjunct records that a
successful fetch stores (payload, now) under the key. -/
theorem C8_cache_behavior (α : Type) (emptyPayload p : α) (key : String)
    (t now : ℚ) (f2 : Option α) :
    get_cached_or_fetch emptyPayload [] key (some p) t
        = ⟨p, [(key, p, t)], true⟩
    ∧ (now - t < 300 →
        get_cached_or_fetch emptyPayload [(key, p, t)] key f2 now
          = ⟨p, [(key, p, t)], false⟩)
    ∧ (¬ now - t < 300 →
        get_cached_or_fetch emptyPayload [(key, p, t)] key none now
          = ⟨p, [(key, p, t)], true⟩)
    ∧ get_cached_or_fetch emptyPayload [] key none now
        = ⟨emptyPayload, [], true⟩ := by
  have hl : lookupC [(key, p, t)] key = some (p, t) := by
    simp [lookupC, List.find?]
  refine ⟨rfl, fun h => ?_, fun h => ?_, rfl⟩
  · unfold get_cached_or_fetch
    rw [hl]
    simp [if_pos h]
  · unfold get_cached_or_fetch
    rw [hl]
    simp [if_neg h]

/-- Witness for C8: a fresh hit at 100 s serves the cache without
fetching; a faulting refetch at 400 s serves the stale entry; a faulting
fetch on an empty cache serves the empty payload. -/
theorem C8_cache_behavior_witness :
    ((100 : ℚ) - 0 < 300
      ∧ get_cached_or_fetch (0 : ℕ) [("market_data", 7, 0)] "market_data" none 100
          = ⟨7, [("market_data", 7, 0)], false⟩)
    ∧ (¬ (400 : ℚ) - 0 < 300
      ∧ get_cached_or_fetch (0 : ℕ) [("market_data", 7, 0)] "market_data" none 400
          = ⟨7, [("market_data", 7, 0)], true⟩)
    ∧ get_cached_or_fetch (0 : ℕ) [] "market_data" none 400 = ⟨0, [], true⟩ :=
  ⟨⟨by norm_num,
      (C8_cache_behavior ℕ 0 7 "market_data" 0 100 none).2.1 (by norm_num)⟩,
    ⟨by norm_num,
      (C8_cache_behavior ℕ 0 7 "market_data" 0 400 none).2.2.1 (by norm_num)⟩,
    (C8_cache_behavior ℕ 0 7 "market_data" 0 400 none).2.2.2⟩

/-- C9 counterexample: with an empty cache and both fetchers faulting,
the overlay does not return the original signal — it degrades to empty
data and still returns an enhanced copy with added fields. -/
theorem C9_counterexample :
    (enhance_signal_with_real_fundamentals emptyCaches none failingNewsFetch 0
        eurSignal).1 ≠ FundResult.passthrough eurSignal
    ∧ (enhance_signal_with_real_fundamentals emptyCaches none failingNewsFetch 0
        eurSignal).1
      = FundResult.enhanced
          { base := eurSignal
            original_confidence := 0.72
            enhanced_confidence := 0.72
            enhancement_factor := 1.0
            market_data := emptyMarketData
            news_sentiment := none
            risk_sentiment := RiskSentiment.UNKNOWN
            currency_factors := ⟨[], []⟩ } := by
  refine ⟨by decide, by decide⟩

/-- C9 amended: fetch faults are degraded to stale-or-empty data with the
enhancement still applied; the original signal is returned unmodified
exactly when the enhancement computation itself faults (non-numeric
confidence), and no fault is ever propagated. -/
theorem C9_amended_passthrough (caches : EngineCaches)
    (marketFetch : Option MarketData)
    (newsFetch : String → Option (Option NewsSentiment)) (now : ℚ)
    (sd : FundSignal) (h : coerceField sd.confidence 0.7 = none) :
    enhance_signal_with_real_fundamentals caches marketFetch newsFetch now sd
      = (FundResult.passthrough sd, caches) := by
  unfold enhance_signal_with_real_fundamentals
  rw [h]

/-- Witness for the amended C9 at a non-numeric confidence field. -/
theorem C9_amended_passthrough_witness :
    coerceField badFundSignal.confidence 0.7 = none
    ∧ enhance_signal_with_real_fundamentals emptyCaches none failingNewsFetch 0
        badFundSignal = (FundResult.passthrough badFundSignal, emptyCaches) :=
  ⟨by decide,
    C9_amended_passthrough emptyCaches none failingNewsFetch 0 badFundSignal
      (by decide)⟩

/-- C10: when enhancement fails, the webhook leaves the entire process
state — history, all counters, average confidence and the active set —
unchanged. -/
theorem C10_state_unchanged_on_failure (d : SignalData) (st : ServerState)
    (h : enhance_signal d = none) :
    (tradingview_webhook (some d) st).2 = st := by
  simp only [tradingview_webhook, h]

/-- Witness for C10 at the non-numeric-confidence body and the initial
state. -/
theorem C10_state_unchanged_on_failure_witness :
    enhance_signal badConfSignal = none
    ∧ (tradingview_webhook (some badConfSignal) initialState).2 = initialState :=
  ⟨by decide, C10_state_unchanged_on_failure badConfSignal initialState (by decide)⟩

/-! ### Step lemmas for the webhook state machine -/

theorem webhookStep_none (st : ServerState) :
    (tradingview_webhook none st).2 = st := rfl

theorem webhookStep_fail (d : SignalData) (st : ServerState)
    (h : enhance_signal d = none) :
    (tradingview_webhook (some d) st).2 = st := by
  simp only [tradingview_webhook, h]

theorem webhookStep_success_history (d : SignalData) (e : EnhancedSignal)
    (st : ServerState) (h : enhance_signal d = some e) :
    (tradingview_webhook (some d) st).2.signals_history
      = dequeAppend st.signals_history e := by
  simp only [tradingview_webhook, h]

theorem webhookStep_success_avg (d : SignalData) (e : EnhancedSignal)
    (st : ServerState) (h : enhance_signal d = some e) :
    (tradingview_webhook (some d) st).2.stats.avg_confidence
      = meanConf (dequeAppend st.signals_history e) := by
  simp only [tradingview_webhook, h]

theorem dequeAppend_length_le (h : List EnhancedSignal) (e : EnhancedSignal)
    (hh : h.length ≤ 1000) : (dequeAppend h e).length ≤ 1000 := by
  unfold dequeAppend
  split <;>
    simp only [List.length_append, List.length_drop, List.length_cons,
      List.length_nil] <;>
    omega

theorem dequeAppend_eq_lastN (h : List EnhancedSignal) (e : EnhancedSignal)
    (hh : h.length ≤ 1000) : dequeAppend h e = lastN 1000 (h ++ [e]) := by
  unfold dequeAppend lastN
  by_cases hlt : h.length < 1000
  · rw [if_pos hlt]
    have h0 : (h ++ [e]).length - 1000 = 0 := by
      simp only [List.length_append, List.length_cons, List.length_nil]
      omega
    rw [h0, List.drop_zero]
  · rw [if_neg hlt]
    have h1 : (h ++ [e]).length - 1000 = 1 := by
      simp only [List.length_append, List.length_cons, List.length_nil]
      omega
    rw [h1, List.drop_append_of_le_length (by omega)]

theorem lastN_absorb (n : ℕ) (l r : List EnhancedSignal) :
    lastN n (lastN n l ++ r) = lastN n (l ++ r) := by
  unfold lastN
  by_cases hl : l.length ≤ n
  · rw [Nat.sub_eq_zero_of_le hl, List.drop_zero]
  · push_neg at hl
    rw [List.drop_append_eq_append_drop, List.drop_append_eq_append_drop,
      List.drop_drop]
    simp only [List.length_append, List.length_drop]
    congr 1
    · congr 1
      omega
    · congr 1
      omega

theorem runWebhooks_history_eq (bodies : List (Option SignalData)) :
    ∀ st : ServerState, st.signals_history.length ≤ 1000 →
      (runWebhooks bodies st).signals_history
        = lastN 1000 (st.signals_history ++ successes bodies) := by
  induction bodies with
  | nil =>
    intro st h
    show st.signals_history = lastN 1000 (st.signals_history ++ [])
    rw [List.append_nil]
    unfold lastN
    rw [Nat.sub_eq_zero_of_le h, List.drop_zero]
  | cons b bs ih =>
    intro st h
    cases b with
    | none =>
      show (runWebhooks bs (tradingview_webhook none st).2).signals_history = _
      rw [webhookStep_none]
      exact ih st h
    | some d =>
      cases he : enhance_signal d with
      | none =>
        show (runWebhooks bs (tradingview_webhook (some d) st).2).signals_history = _
        rw [webhookStep_fail d st he]
        have hs : successes (some d :: bs) = successes bs := by
          simp only [successes, he]
        rw [hs]
        exact ih st h
      | some e =>
        show (runWebhooks bs (tradingview_webhook (some d) st).2).signals_history = _
        have hs : successes (some d :: bs) = e :: successes bs := by
          simp only [successes, he]
        have hhist : (tradingview_webhook (some d) st).2.signals_history
            = dequeAppend st.signals_history e :=
          webhookStep_success_history d e st he
        have hlen : (tradingview_webhook (some d) st).2.signals_history.length ≤ 1000 := by
          rw [hhist]
          exact dequeAppend_length_le _ _ h
        rw [hs, ih _ hlen, hhist, dequeAppend_eq_lastN _ _ h, lastN_absorb,
          List.append_assoc]
        rfl

theorem avgInv_step (b : Option SignalData) (st : ServerState)
    (h : AvgInv st) : AvgInv (tradingview_webhook b st).2 := by
  cases b with
  | none =>
    rw [webhookStep_none]
    exact h
  | some d =>
    cases he : enhance_signal d with
    | none =>
      rw [webhookStep_fail d st he]
      exact h
    | some e =>
      right
      rw [webhookStep_success_history d e st he, webhookStep_success_avg d e st he]

theorem runWebhooks_avgInv (bodies : List (Option SignalData)) :
    ∀ st : ServerState, AvgInv st → AvgInv (runWebhooks bodies st) := by
  induction bodies with
  | nil =>
    intro st h
    exact h
  | cons b bs ih =>
    intro st h
    exact ih _ (avgInv_step b st h)

/-- C3: starting from the initial state, after any sequence of webhook
invocations the retained history is exactly the last 1000 successfully
enhanced signals in insertion order — so the history never exceeds 1000
entries and, once 1001 signals have been inserted, the oldest has been
evicted. -/
theorem C3_history_bounded (bodies : List (Option SignalData)) :
    (runWebhooks bodies initialState).signals_history
      = lastN 1000 (successes bodies)
    ∧ (runWebhooks bodies initialState).signals_history.length ≤ 1000 := by
  have h := runWebhooks_history_eq bodies initialState (by simp [initialState])
  have h2 : (runWebhooks bodies initialState).signals_history
      = lastN 1000 (successes bodies) := by
    simpa [initialState] using h
  refine ⟨h2, ?_⟩
  rw [h2]
  unfold lastN
  simp only [List.length_drop]
  omega

/-- C4: at every reachable state with a non-empty history, avg_confidence
equals the arithmetic mean of the enhanced_confidence values of all
retained history entries. -/
theorem C4_avg_confidence (bodies : List (Option SignalData))
    (h : (runWebhooks bodies initialState).signals_history ≠ []) :
    (runWebhooks bodies initialState).stats.avg_confidence
      = meanConf (runWebhooks bodies initialState).signals_history := by
  rcases runWebhooks_avgInv bodies initialState (Or.inl rfl) with he | hv
  · exact absurd he h
  · exact hv

/-- Witness for C4 after one successful webhook call. -/
theorem C4_avg_confidence_witness :
    (runWebhooks [some gbpSignal] initialState).signals_history ≠ []
    ∧ (runWebhooks [some gbpSignal] initialState).stats.avg_confidence
        = meanConf (runWebhooks [some gbpSignal] initialState).signals_history :=
  ⟨by decide, C4_avg_confidence [some gbpSignal] (by decide)⟩

end ForexPower
